import Mathlib

/-!
Shallow embedding of the STOCK_TERMINAL backend ("Bloomberg Lite").

The quote service model follows `BACKEND/app/stock_service.py`
(`StockService.get_stock_data`), the watchlist model follows
`BACKEND/app/db_service.py` together with the routes in
`BACKEND/app/routes/watchlist.py`, and the registration model follows
`BACKEND/app/auth.py` (`register_user`).

Conventions of the embedding:
- Timestamps are natural numbers of seconds; `datetime.now() - t` is the
  nonnegative difference, and Python's `timedelta.seconds` attribute is the
  difference taken modulo 86400 (the seconds-within-a-day component).
- Provider float values are modelled by `PValue`: either NaN or a number
  (numbers as integers; no float rounding is relevant to the properties).
- Python exceptions are `Except Nat` values whose error component is the
  HTTP status code ultimately raised (`HTTPException(status_code=...)`).
- The Mongo/Motor collections are modelled by explicit values: the stocks
  collection is a list of documents keyed by their `symbol` field, and a
  single user's watchlist document is an `Option (List String)`.
-/

namespace StockTerminal

/-- A numeric value coming back from the provider (`ticker.info[...]` after
Python `float(...)` conversion): either NaN or an ordinary number. -/
inductive PValue where
  | nan : PValue
  | num : Int → PValue
deriving DecidableEq, Repr

/-- Python truthiness of such a value: `0.0` is falsy, every other number is
truthy, and NaN is truthy. -/
def PValue.truthy : PValue → Bool
  | .nan => true
  | .num q => decide (q ≠ 0)

/-- Python's `a or b` on provider values: returns `a` when `a` is truthy,
otherwise `b`. -/
def PValue.pyOr (a b : PValue) : PValue :=
  if a.truthy then a else b

/-- The NaN-scrub performed by the loop at `stock_service.py` lines 82-84:
`if isinstance(value, float) and pd.isna(value): stock_data[key] = 0.0`. -/
def PValue.scrub : PValue → PValue
  | .nan => .num 0
  | .num q => .num q

/-- Whether a value is an ordinary (non-NaN) number. -/
def PValue.isNum : PValue → Bool
  | .nan => false
  | .num _ => true

/-- Python `int(...)` on a provider value: `int(float('nan'))` raises a
`ValueError`, which the service's generic `except` turns into a 500. -/
def PValue.pyInt : PValue → Except Nat Int
  | .nan => .error 500
  | .num q => .ok q

/-- The fields of `ticker.info` that `get_stock_data` reads; a `none` field
models a key absent from the provider's dict (so `info.get(key, 0)` yields
the default `0`). -/
structure ProviderInfo where
  longName : Option String := none
  currentPrice : Option PValue := none
  regularMarketPrice : Option PValue := none
  regularMarketChange : Option PValue := none
  regularMarketChangePercent : Option PValue := none
  previousClose : Option PValue := none
  regularMarketOpen : Option PValue := none
  regularMarketDayHigh : Option PValue := none
  regularMarketDayLow : Option PValue := none
  regularMarketVolume : Option PValue := none
  marketCap : Option PValue := none
  trailingPE : Option PValue := none
  fiftyTwoWeekHigh : Option PValue := none
  fiftyTwoWeekLow : Option PValue := none
deriving DecidableEq, Repr

/-- Outcome of one call to the external provider (`yf.Ticker(symbol).info`):
the call raises, returns a falsy/empty dict, or returns a dict of fields. -/
inductive ProviderResult where
  | err : ProviderResult
  | empty : ProviderResult
  | ok : ProviderInfo → ProviderResult
deriving DecidableEq, Repr

/-- The `stock_data` document built at `stock_service.py` lines 63-79 (and
cached by `db_service.store_stock_data`).  `open_` stands for the dict key
`"open"` (a reserved word in Lean). -/
structure StockData where
  symbol : String
  company_name : String
  current_price : PValue
  price_change : PValue
  price_change_percent : PValue
  previous_close : PValue
  open_ : PValue
  day_high : PValue
  day_low : PValue
  volume : Int
  market_cap : PValue
  pe_ratio : PValue
  fifty_two_week_high : PValue
  fifty_two_week_low : PValue
  lastUpdated : Nat
deriving DecidableEq, Repr

/-- Python `symbol.upper()` (ASCII): uppercase every character. -/
def pyUpper (s : String) : String :=
  ⟨s.data.map Char.toUpper⟩

/-- Construction of the `stock_data` dict from the provider info
(`stock_service.py` lines 63-84), including the subsequent NaN-scrub loop.
`int(info.get("regularMarketVolume", 0))` raises on NaN (hence the
`Except`); every float field is built by `float(info.get(key, 0))` —
possibly through Python `or` for `current_price` and `pe_ratio` — and then
scrubbed to `0.0` when NaN. -/
def buildStockData (symbol : String) (info : ProviderInfo) (now : Nat) :
    Except Nat StockData :=
  match (info.regularMarketVolume.getD (.num 0)).pyInt with
  | .error e => .error e
  | .ok vol =>
    .ok
      { symbol := pyUpper symbol
        company_name := info.longName.getD ""
        current_price :=
          ((info.currentPrice.getD (.num 0)).pyOr
            (info.regularMarketPrice.getD (.num 0))).scrub
        price_change := (info.regularMarketChange.getD (.num 0)).scrub
        price_change_percent :=
          (info.regularMarketChangePercent.getD (.num 0)).scrub
        previous_close := (info.previousClose.getD (.num 0)).scrub
        open_ := (info.regularMarketOpen.getD (.num 0)).scrub
        day_high := (info.regularMarketDayHigh.getD (.num 0)).scrub
        day_low := (info.regularMarketDayLow.getD (.num 0)).scrub
        volume := vol
        market_cap := (info.marketCap.getD (.num 0)).scrub
        pe_ratio := ((info.trailingPE.getD (.num 0)).pyOr (.num 0)).scrub
        fifty_two_week_high := (info.fiftyTwoWeekHigh.getD (.num 0)).scrub
        fifty_two_week_low := (info.fiftyTwoWeekLow.getD (.num 0)).scrub
        lastUpdated := now }

/-- Python's `(datetime.now() - fetchedAt).seconds`: the seconds-within-a-day
component of the elapsed time, i.e. the difference modulo 86400.  (This is
the expression the service uses at `stock_service.py` line 53; it is NOT the
total elapsed seconds.) -/
def pySeconds (now fetchedAt : Nat) : Int :=
  ((now : Int) - (fetchedAt : Int)) % 86400

/-- The cache check at `stock_service.py` lines 52-54: look the raw symbol up
in the stocks collection (`db_service.get_stock_data` runs
`find_one({"symbol": symbol})`) and keep the document only if
`(now - lastUpdated).seconds < 300`. -/
def freshCached (cache : List StockData) (now : Nat) (symbol : String) :
    Option StockData :=
  match cache.find? (fun c => c.symbol == symbol) with
  | some c => if pySeconds now c.lastUpdated < 300 then some c else none
  | none => none

/-- `db_service.store_stock_data`: `update_one({"symbol": d.symbol},
{"$set": d}, upsert=True)` — replace the document with the same symbol key,
or append a new one. -/
def storeStockData (cache : List StockData) (d : StockData) :
    List StockData :=
  if cache.any (fun c => c.symbol == d.symbol) then
    cache.map (fun c => if c.symbol == d.symbol then d else c)
  else cache ++ [d]

deriving instance DecidableEq for Except

/-- Result of one `get_stock_data` call: the HTTP-level outcome, whether the
provider was contacted, and the stocks collection afterwards. -/
structure FetchOutcome where
  result : Except Nat StockData
  providerCalled : Bool
  cacheAfter : List StockData
deriving DecidableEq, Repr

/-- The provider branch of `StockService.get_stock_data` (lines 56-92): a
raising provider call becomes a 500, a falsy `info` becomes a 404
(`raise HTTPException(404)` passes through the `except HTTPException`
clause unchanged), and otherwise the built document is returned and written
back (cache-write errors are swallowed and do not affect the result). -/
def fetchAndStore (cache : List StockData) (now : Nat)
    (provider : ProviderResult) (symbol : String) : FetchOutcome :=
  match provider with
  | .err => ⟨.error 500, true, cache⟩
  | .empty => ⟨.error 404, true, cache⟩
  | .ok info =>
    match buildStockData symbol info now with
    | .error e => ⟨.error e, true, cache⟩
    | .ok d => ⟨.ok d, true, storeStockData cache d⟩

/-- `StockService.get_stock_data` (`BACKEND/app/stock_service.py` lines
48-98): serve the cached document if the freshness check passes, otherwise
fetch from the provider and write back. -/
def get_stock_data (cache : List StockData) (now : Nat)
    (provider : ProviderResult) (symbol : String) : FetchOutcome :=
  match freshCached cache now symbol with
  | some c => ⟨.ok c, false, cache⟩
  | none => fetchAndStore cache now provider symbol

/-- A sample cached document used for concrete instances. -/
def aaplDoc : StockData :=
  { symbol := "AAPL"
    company_name := "Apple Inc."
    current_price := .num 100
    price_change := .num 1
    price_change_percent := .num 1
    previous_close := .num 99
    open_ := .num 99
    day_high := .num 101
    day_low := .num 98
    volume := 1000
    market_cap := .num 500
    pe_ratio := .num 10
    fifty_two_week_high := .num 120
    fifty_two_week_low := .num 80
    lastUpdated := 0 }

/-- C1: if a snapshot for the requested symbol exists in the cache and its
age (now minus its fetched-at timestamp) is below the 300-second freshness
window, `get_stock_data` returns that cached snapshot, makes no provider
call, and leaves the cache unchanged. -/
theorem c1_fresh_cache_hit_no_provider_call
    (cache : List StockData) (now : Nat) (provider : ProviderResult)
    (symbol : String) (c : StockData)
    (hfind : cache.find? (fun d => d.symbol == symbol) = some c)
    (hpast : c.lastUpdated ≤ now)
    (hfresh : now - c.lastUpdated < 300) :
    get_stock_data cache now provider symbol = ⟨.ok c, false, cache⟩ := by
  have hlt : pySeconds now c.lastUpdated < 300 := by
    unfold pySeconds
    have hmod : ((now : Int) - (c.lastUpdated : Int)) % 86400 =
        ((now : Int) - (c.lastUpdated : Int)) := by
      apply Int.emod_eq_of_lt <;> omega
    rw [hmod]; omega
  unfold get_stock_data freshCached
  rw [hfind]
  simp [hlt]

/-- Witness for C1 at a concrete input: a snapshot fetched at time 0 and
requested again at time 100 is served from cache with no provider call. -/
theorem c1_fresh_cache_hit_no_provider_call_witness :
    ([aaplDoc].find? (fun d => d.symbol == "AAPL") = some aaplDoc ∧
      aaplDoc.lastUpdated ≤ 100 ∧ 100 - aaplDoc.lastUpdated < 300) ∧
    get_stock_data [aaplDoc] 100 .err "AAPL" = ⟨.ok aaplDoc, false, [aaplDoc]⟩ :=
  ⟨⟨by decide, by decide, by decide⟩,
    c1_fresh_cache_hit_no_provider_call [aaplDoc] 100 .err "AAPL" aaplDoc
      (by decide) (by decide) (by decide)⟩

/-- C2: the code contradicts the claim at a concrete input.  A snapshot
fetched at time 0 and requested again at time 86400 (age exactly one day,
far beyond the 300-second freshness window) is still served from the cache
with no provider call and an unchanged fetched-at timestamp, because
`(now - lastUpdated).seconds` is the elapsed time modulo 86400 (here 0),
not the total elapsed seconds.  For contrast, at age 400 seconds the
provider is queried as the claim requires. -/
theorem c2_day_old_snapshot_served_from_cache :
    get_stock_data [aaplDoc] 86400 .empty "AAPL" =
      ⟨.ok aaplDoc, false, [aaplDoc]⟩ ∧
    get_stock_data [aaplDoc] 400 .empty "AAPL" =
      ⟨.error 404, true, [aaplDoc]⟩ ∧
    pySeconds 86400 aaplDoc.lastUpdated = 0 :=
  ⟨by decide, by decide, by decide⟩

/-- C6 counterexample: with a fresh snapshot keyed `"AAPL"` in the cache, the
call `get_stock_data(... "aapl")` still contacts the provider while
`get_stock_data(... "AAPL")` is served from cache, although the two symbols
differ only in letter case: the symbol is not uppercased before the cache
lookup, so the two calls do not address the same cache entry. -/
theorem c6_lowercase_call_misses_fresh_cache :
    (get_stock_data [aaplDoc] 100 .err "aapl").providerCalled = true ∧
    (get_stock_data [aaplDoc] 100 .err "AAPL").providerCalled = false ∧
    pyUpper "aapl" = "AAPL" :=
  ⟨by decide, by decide, by decide⟩

/-- The snapshot built on the fetch path carries the uppercased symbol
(`"symbol": symbol.upper()` at `stock_service.py` line 64). -/
theorem buildStockData_symbol_upper (symbol : String) (info : ProviderInfo)
    (now : Nat) (d : StockData) (h : buildStockData symbol info now = .ok d) :
    d.symbol = pyUpper symbol := by
  unfold buildStockData at h
  cases hv : (info.regularMarketVolume.getD (.num 0)).pyInt with
  | error e => rw [hv] at h; exact Except.noConfusion h
  | ok v => rw [hv] at h; injection h with h2; rw [← h2]

/-- C6 amended: the symbol is uppercased only when the snapshot is
constructed for the response and the write-back; the cache lookup (and the
provider ticker) use the raw input symbol.  So a successful result is
either a cache hit found under the raw symbol, or a freshly built snapshot
whose stored key is the uppercased symbol; and the provider is contacted
exactly when the raw-symbol lookup finds no fresh document. -/
theorem c6_upper_only_at_snapshot_construction
    (cache : List StockData) (now : Nat) (info : ProviderInfo)
    (symbol : String) (d : StockData)
    (h : (get_stock_data cache now (.ok info) symbol).result = .ok d) :
    (freshCached cache now symbol = some d ∨ d.symbol = pyUpper symbol) ∧
    (get_stock_data cache now (.ok info) symbol).providerCalled =
      (freshCached cache now symbol).isNone := by
  cases hfc : freshCached cache now symbol with
  | some c =>
    simp only [get_stock_data, hfc] at h ⊢
    injection h with h3
    exact ⟨Or.inl (by rw [h3]), rfl⟩
  | none =>
    simp only [get_stock_data, hfc, fetchAndStore] at h ⊢
    cases hb : buildStockData symbol info now with
    | error e =>
      simp only [hb] at h
      exact Except.noConfusion h
    | ok d2 =>
      simp only [hb] at h ⊢
      injection h with h3
      subst h3
      exact ⟨Or.inr (buildStockData_symbol_upper symbol info now d2 hb), rfl⟩

/-- The snapshot built from an empty provider dict for the symbol `"aapl"`
at time 7: every required numeric defaults to zero and the stored key is
the uppercased symbol. -/
def zeroAaplDoc : StockData :=
  { symbol := "AAPL"
    company_name := ""
    current_price := .num 0
    price_change := .num 0
    price_change_percent := .num 0
    previous_close := .num 0
    open_ := .num 0
    day_high := .num 0
    day_low := .num 0
    volume := 0
    market_cap := .num 0
    pe_ratio := .num 0
    fifty_two_week_high := .num 0
    fifty_two_week_low := .num 0
    lastUpdated := 7 }

/-- Witness for the amended C6 at a concrete input. -/
theorem c6_upper_only_at_snapshot_construction_witness :
    (get_stock_data [] 7 (.ok {}) "aapl").result = .ok zeroAaplDoc ∧
    ((freshCached [] 7 "aapl" = some zeroAaplDoc ∨
        zeroAaplDoc.symbol = pyUpper "aapl") ∧
      (get_stock_data [] 7 (.ok {}) "aapl").providerCalled =
        (freshCached [] 7 "aapl").isNone) :=
  ⟨by decide,
    c6_upper_only_at_snapshot_construction [] 7 {} "aapl" zeroAaplDoc
      (by decide)⟩

/-- C7: when the cache yields no fresh snapshot, a provider that returns no
usable data makes `get_stock_data` fail with 404 (Not-Found), while a
provider call that raises makes it fail with 500 (Service-Error). -/
theorem c7_no_data_404_provider_error_500
    (cache : List StockData) (now : Nat) (symbol : String)
    (hmiss : freshCached cache now symbol = none) :
    (get_stock_data cache now .empty symbol).result = .error 404 ∧
    (get_stock_data cache now .err symbol).result = .error 500 := by
  unfold get_stock_data
  rw [hmiss]
  exact ⟨rfl, rfl⟩

/-- Witness for C7 on the empty cache. -/
theorem c7_no_data_404_provider_error_500_witness :
    freshCached [] 5 "MSFT" = none ∧
    ((get_stock_data [] 5 .empty "MSFT").result = .error 404 ∧
      (get_stock_data [] 5 .err "MSFT").result = .error 500) :=
  ⟨rfl, c7_no_data_404_provider_error_500 [] 5 "MSFT" rfl⟩

/-- All float-typed fields of a snapshot are ordinary (non-NaN) numbers. -/
def StockData.noNaN (d : StockData) : Bool :=
  d.current_price.isNum && d.price_change.isNum &&
  d.price_change_percent.isNum && d.previous_close.isNum &&
  d.open_.isNum && d.day_high.isNum && d.day_low.isNum &&
  d.market_cap.isNum && d.pe_ratio.isNum &&
  d.fifty_two_week_high.isNum && d.fifty_two_week_low.isNum

/-- Scrubbing always yields an ordinary number. -/
theorem PValue.scrub_isNum (v : PValue) : v.scrub.isNum = true := by
  cases v <;> rfl

/-- C8: on the fetch path, a successful snapshot has no NaN in any float
field (the scrub loop normalizes NaN to zero), and every numeric field
whose provider key is absent is populated with zero. -/
theorem c8_numeric_defaults_and_nan_scrub
    (cache : List StockData) (now : Nat) (info : ProviderInfo)
    (symbol : String) (d : StockData)
    (hmiss : freshCached cache now symbol = none)
    (hres : (get_stock_data cache now (.ok info) symbol).result = .ok d) :
    d.noNaN = true ∧
    (info.currentPrice = none → info.regularMarketPrice = none →
      d.current_price = .num 0) ∧
    (info.regularMarketChange = none → d.price_change = .num 0) ∧
    (info.regularMarketChangePercent = none →
      d.price_change_percent = .num 0) ∧
    (info.previousClose = none → d.previous_close = .num 0) ∧
    (info.regularMarketOpen = none → d.open_ = .num 0) ∧
    (info.regularMarketDayHigh = none → d.day_high = .num 0) ∧
    (info.regularMarketDayLow = none → d.day_low = .num 0) ∧
    (info.regularMarketVolume = none → d.volume = 0) ∧
    (info.marketCap = none → d.market_cap = .num 0) ∧
    (info.trailingPE = none → d.pe_ratio = .num 0) ∧
    (info.fiftyTwoWeekHigh = none → d.fifty_two_week_high = .num 0) ∧
    (info.fiftyTwoWeekLow = none → d.fifty_two_week_low = .num 0) := by
  simp only [get_stock_data, hmiss, fetchAndStore] at hres
  cases hb : buildStockData symbol info now with
  | error e =>
    simp only [hb] at hres
    exact Except.noConfusion hres
  | ok d2 =>
    simp only [hb] at hres
    injection hres with h3
    subst h3
    unfold buildStockData at hb
    cases hv : (info.regularMarketVolume.getD (.num 0)).pyInt with
    | error e =>
      rw [hv] at hb
      exact Except.noConfusion hb
    | ok v =>
      rw [hv] at hb
      injection hb with hb2
      subst hb2
      refine ⟨?_, ?_, ?_, ?_, ?_, ?_, ?_, ?_, ?_, ?_, ?_, ?_, ?_⟩
      · simp [StockData.noNaN, PValue.scrub_isNum]
      · intro h1 h4
        simp [h1, h4, PValue.pyOr, PValue.truthy, PValue.scrub]
      · intro h1; simp [h1, PValue.scrub]
      · intro h1; simp [h1, PValue.scrub]
      · intro h1; simp [h1, PValue.scrub]
      · intro h1; simp [h1, PValue.scrub]
      · intro h1; simp [h1, PValue.scrub]
      · intro h1; simp [h1, PValue.scrub]
      · intro h1
        rw [h1] at hv
        have h5 : Except.ok (ε := Nat) (0 : Int) = Except.ok v := hv
        injection h5 with h6
        exact h6.symm
      · intro h1; simp [h1, PValue.scrub]
      · intro h1; simp [h1, PValue.pyOr, PValue.truthy, PValue.scrub]
      · intro h1; simp [h1, PValue.scrub]
      · intro h1; simp [h1, PValue.scrub]

/-- Witness for C8: a provider dict supplying only a NaN price and nothing
else yields a snapshot whose price was scrubbed to zero and whose other
numerics default to zero. -/
theorem c8_numeric_defaults_and_nan_scrub_witness :
    (freshCached [] 7 "aapl" = none ∧
      (get_stock_data [] 7
          (.ok { currentPrice := some .nan }) "aapl").result =
        .ok zeroAaplDoc) ∧
    (zeroAaplDoc.noNaN = true ∧
      ({ currentPrice := some .nan : ProviderInfo }.currentPrice = none →
        ({ currentPrice := some .nan : ProviderInfo }.regularMarketPrice
            = none) →
        zeroAaplDoc.current_price = .num 0) ∧
      (({ currentPrice := some .nan : ProviderInfo }.regularMarketChange
          = none) → zeroAaplDoc.price_change = .num 0) ∧
      (({ currentPrice := some .nan :
            ProviderInfo }.regularMarketChangePercent = none) →
        zeroAaplDoc.price_change_percent = .num 0) ∧
      (({ currentPrice := some .nan : ProviderInfo }.previousClose = none) →
        zeroAaplDoc.previous_close = .num 0) ∧
      (({ currentPrice := some .nan : ProviderInfo }.regularMarketOpen
          = none) → zeroAaplDoc.open_ = .num 0) ∧
      (({ currentPrice := some .nan : ProviderInfo }.regularMarketDayHigh
          = none) → zeroAaplDoc.day_high = .num 0) ∧
      (({ currentPrice := some .nan : ProviderInfo }.regularMarketDayLow
          = none) → zeroAaplDoc.day_low = .num 0) ∧
      (({ currentPrice := some .nan : ProviderInfo }.regularMarketVolume
          = none) → zeroAaplDoc.volume = 0) ∧
      (({ currentPrice := some .nan : ProviderInfo }.marketCap = none) →
        zeroAaplDoc.market_cap = .num 0) ∧
      (({ currentPrice := some .nan : ProviderInfo }.trailingPE = none) →
        zeroAaplDoc.pe_ratio = .num 0) ∧
      (({ currentPrice := some .nan : ProviderInfo }.fiftyTwoWeekHigh
          = none) → zeroAaplDoc.fifty_two_week_high = .num 0) ∧
      (({ currentPrice := some .nan : ProviderInfo }.fiftyTwoWeekLow
          = none) → zeroAaplDoc.fifty_two_week_low = .num 0)) :=
  ⟨⟨by decide, by decide⟩,
    c8_numeric_defaults_and_nan_scrub [] 7 { currentPrice := some .nan }
      "aapl" zeroAaplDoc (by decide) (by decide)⟩

/-! Watchlist service model.  A single user's watchlist document in the
`watchlists` collection is `Option (List String)`: `none` when no document
exists for the user yet, `some symbols` otherwise. -/

/-- `DatabaseService.add_to_watchlist` (`db_service.py` lines 63-73):
`update_one({"user_id": uid}, {"$addToSet": {"symbols": symbol}},
upsert=True)`.  `$addToSet` appends the symbol only when absent; the
returned flag is `modified_count > 0 or upserted_id is not None`. -/
def add_to_watchlist : Option (List String) → String →
    Option (List String) × Bool
  | some wl, s => if s ∈ wl then (some wl, false) else (some (wl ++ [s]), true)
  | none, s => (some [s], true)

/-- `DatabaseService.remove_from_watchlist` (`db_service.py` lines 75-84):
`update_one({"user_id": uid}, {"$pull": {"symbols": symbol}})` (no upsert).
`$pull` removes every occurrence of the symbol; the returned flag is
`modified_count > 0`. -/
def remove_from_watchlist : Option (List String) → String →
    Option (List String) × Bool
  | some wl, s =>
    if s ∈ wl then (some (wl.filter (fun x => x ≠ s)), true)
    else (some wl, false)
  | none, _ => (none, false)

/-- The route `POST /api/watchlist/add` (`routes/watchlist.py` lines 17-26):
a `False` flag from the DB layer is turned into
`HTTPException(status_code=500, "Failed to add to watchlist")`. -/
def route_add (wl : Option (List String)) (s : String) :
    Except Nat String × Option (List String) :=
  match add_to_watchlist wl s with
  | (wl2, true) => (.ok ("Added " ++ s ++ " to watchlist"), wl2)
  | (wl2, false) => (.error 500, wl2)

/-- The route `DELETE /api/watchlist/remove` (`routes/watchlist.py` lines
28-37): a `False` flag from the DB layer is turned into
`HTTPException(status_code=500, "Failed to remove from watchlist")`. -/
def route_remove (wl : Option (List String)) (s : String) :
    Except Nat String × Option (List String) :=
  match remove_from_watchlist wl s with
  | (wl2, true) => (.ok ("Removed " ++ s ++ " from watchlist"), wl2)
  | (wl2, false) => (.error 500, wl2)

/-- C3 counterexample: adding `"AAPL"` to a watchlist that already contains
it leaves the watchlist unchanged, but the operation does NOT succeed as a
no-op: the DB layer reports `False` and the route answers with a 500
error. -/
theorem c3_duplicate_add_is_500_error :
    add_to_watchlist (some ["AAPL"]) "AAPL" = (some ["AAPL"], false) ∧
    route_add (some ["AAPL"]) "AAPL" = (.error 500, some ["AAPL"]) :=
  ⟨by decide, by decide⟩

/-- C3 amended: adding an already-present symbol leaves the watchlist
unchanged and never duplicates the symbol (`$addToSet` set semantics: in a
duplicate-free watchlist it still appears exactly once), but the operation
is reported as a failure, not a no-op success: the DB layer returns `False`
and the route responds with a 500 error. -/
theorem c3_duplicate_add_keeps_set_but_reports_failure
    (wl : List String) (s : String) (hnd : wl.Nodup) (hmem : s ∈ wl) :
    add_to_watchlist (some wl) s = (some wl, false) ∧
    route_add (some wl) s = (.error 500, some wl) ∧
    wl.count s = 1 := by
  refine ⟨?_, ?_, List.count_eq_one_of_mem hnd hmem⟩
  · simp [add_to_watchlist, hmem]
  · simp [route_add, add_to_watchlist, hmem]

/-- Witness for the amended C3 at a concrete input. -/
theorem c3_duplicate_add_keeps_set_but_reports_failure_witness :
    ((["AAPL", "MSFT"] : List String).Nodup ∧ "AAPL" ∈ ["AAPL", "MSFT"]) ∧
    (add_to_watchlist (some ["AAPL", "MSFT"]) "AAPL" =
        (some ["AAPL", "MSFT"], false) ∧
      route_add (some ["AAPL", "MSFT"]) "AAPL" =
        (.error 500, some ["AAPL", "MSFT"]) ∧
      (["AAPL", "MSFT"] : List String).count "AAPL" = 1) :=
  ⟨⟨by decide, by decide⟩,
    c3_duplicate_add_keeps_set_but_reports_failure ["AAPL", "MSFT"] "AAPL"
      (by decide) (by decide)⟩

/-- C5 counterexample: removing `"MSFT"` from a watchlist that does not
contain it leaves the watchlist unchanged, but the operation is not
reported as a no-op: the route answers with a 500 error. -/
theorem c5_remove_absent_is_500_error :
    remove_from_watchlist (some ["AAPL"]) "MSFT" = (some ["AAPL"], false) ∧
    route_remove (some ["AAPL"]) "MSFT" = (.error 500, some ["AAPL"]) :=
  ⟨by decide, by decide⟩

/-- C5 amended: removing an absent symbol leaves the watchlist unchanged and
the DB layer reports `False` (distinguishable from a successful removal,
which reports `True`), but the route converts that flag into a 500 error
rather than a no-op success; likewise when no watchlist document exists. -/
theorem c5_remove_absent_unchanged_but_reports_failure
    (wl : List String) (s : String) (hmem : s ∉ wl) :
    remove_from_watchlist (some wl) s = (some wl, false) ∧
    route_remove (some wl) s = (.error 500, some wl) ∧
    remove_from_watchlist none s = (none, false) ∧
    route_remove none s = (.error 500, none) := by
  refine ⟨?_, ?_, rfl, rfl⟩
  · simp [remove_from_watchlist, hmem]
  · simp [route_remove, remove_from_watchlist, hmem]

/-- Witness for the amended C5 at a concrete input. -/
theorem c5_remove_absent_unchanged_but_reports_failure_witness :
    ("MSFT" ∉ (["AAPL"] : List String)) ∧
    (remove_from_watchlist (some ["AAPL"]) "MSFT" = (some ["AAPL"], false) ∧
      route_remove (some ["AAPL"]) "MSFT" = (.error 500, some ["AAPL"]) ∧
      remove_from_watchlist none "MSFT" = (none, false) ∧
      route_remove none "MSFT" = (.error 500, none)) :=
  ⟨by decide,
    c5_remove_absent_unchanged_but_reports_failure ["AAPL"] "MSFT"
      (by decide)⟩

/-! Registration model (`BACKEND/app/auth.py`, `register_user`, lines
129-172).  The users collection is a list of stored user documents; bcrypt
is an external collaborator modelled by a tagging function. -/

/-- A stored user document (`UserInDB`: username, email, hashed password,
creation time). -/
structure StoredUser where
  username : String
  email : String
  hashed_password : String
  created_at : Nat
deriving DecidableEq, Repr

/-- A registration request (username, email, plaintext password). -/
structure RegisterReq where
  username : String
  email : String
  password : String
deriving DecidableEq, Repr

/-- The user object returned on success (`User(username=..., email=...,
password="", created_at=...)` at `auth.py` lines 160-165). -/
structure RegisterResp where
  username : String
  email : String
  password : String
  created_at : Nat
deriving DecidableEq, Repr

/-- The external password-hashing collaborator (`pwd_context.hash`). -/
def hashPassword (p : String) : String :=
  "bcrypt$" ++ p

/-- The body of the `try` block of `register_user`: duplicate-username and
duplicate-email checks each `raise HTTPException(400)`; otherwise the user
document is inserted and a `User` with an empty password field is
returned. -/
def register_inner (db : List StoredUser) (req : RegisterReq) (now : Nat) :
    Except Nat (RegisterResp × List StoredUser) :=
  if db.any (fun u => u.username == req.username) then .error 400
  else if db.any (fun u => u.email == req.email) then .error 400
  else
    .ok ({ username := req.username
           email := req.email
           password := ""
           created_at := now },
      db ++ [{ username := req.username
               email := req.email
               hashed_password := hashPassword req.password
               created_at := now }])

/-- `register_user` as observed at the HTTP boundary: the trailing
`except Exception` clause (`auth.py` lines 167-172) catches every
exception — including the `HTTPException(400)` raised by the duplicate
checks, since FastAPI's `HTTPException` is an `Exception` — and re-raises
`HTTPException(500, "Error registering user")`. -/
def register_user (db : List StoredUser) (req : RegisterReq) (now : Nat) :
    Except Nat (RegisterResp × List StoredUser) :=
  match register_inner db req now with
  | .ok r => .ok r
  | .error _ => .error 500

/-- An already-registered user for the concrete instances. -/
def aliceUser : StoredUser :=
  { username := "alice"
    email := "a@x.com"
    hashed_password := hashPassword "pw1"
    created_at := 0 }

/-- C4: the code contradicts the claim at concrete inputs.  Registering a
duplicate username (or a duplicate email under a different username) makes
the handler raise `HTTPException(400)` internally, but the surrounding
`except Exception` clause catches that very exception and replaces it with
a 500 response, so the observable result is a ServiceError-class 500, not
the Conflict-class 400 the code itself constructs. -/
theorem c4_duplicate_registration_replies_500 :
    register_inner [aliceUser] ⟨"alice", "b@y.com", "pw"⟩ 1 = .error 400 ∧
    register_user [aliceUser] ⟨"alice", "b@y.com", "pw"⟩ 1 = .error 500 ∧
    register_inner [aliceUser] ⟨"bob", "a@x.com", "pw"⟩ 1 = .error 400 ∧
    register_user [aliceUser] ⟨"bob", "a@x.com", "pw"⟩ 1 = .error 500 :=
  ⟨by decide, by decide, by decide, by decide⟩

/-- C9: every successful registration response carries an empty password
field — neither the submitted plaintext nor the stored hash appears in the
response, whose only other fields are username, email and creation time. -/
theorem c9_success_response_password_empty
    (db : List StoredUser) (req : RegisterReq) (now : Nat)
    (resp : RegisterResp) (db2 : List StoredUser)
    (h : register_user db req now = .ok (resp, db2)) :
    resp.password = "" ∧
    resp = { username := req.username, email := req.email, password := "",
             created_at := now } := by
  unfold register_user register_inner at h
  by_cases h1 : db.any (fun u => u.username == req.username)
  · simp [h1] at h
  · by_cases h2 : db.any (fun u => u.email == req.email)
    · simp [h1, h2] at h
    · simp [h1, h2] at h
      exact ⟨by rw [← h.1], h.1.symm⟩

/-- Witness for C9: a registration against an empty user store succeeds and
the returned password field is empty. -/
theorem c9_success_response_password_empty_witness :
    (register_user [] ⟨"alice", "a@x.com", "pw1"⟩ 5 =
      .ok ({ username := "alice", email := "a@x.com", password := "",
             created_at := 5 },
        [{ username := "alice", email := "a@x.com",
           hashed_password := hashPassword "pw1", created_at := 5 }])) ∧
    (RegisterResp.password
        { username := "alice", email := "a@x.com", password := "",
          created_at := 5 } = "" ∧
      ({ username := "alice", email := "a@x.com", password := "",
         created_at := 5 } : RegisterResp) =
        { username := "alice", email := "a@x.com", password := "",
          created_at := 5 }) :=
  ⟨by decide,
    c9_success_response_password_empty [] ⟨"alice", "a@x.com", "pw1"⟩ 5
      { username := "alice", email := "a@x.com", password := "",
        created_at := 5 }
      [{ username := "alice", email := "a@x.com",
         hashed_password := hashPassword "pw1", created_at := 5 }]
      (by decide)⟩

/-! Watchlist read model (`db_service.py`: `get_watchlist` lines 270-307 and
`get_user_watchlist` lines 55-61).  The store's behavior is passed in
explicitly: `findRes` is the outcome of `find_one` (it may raise), and
`insertRes` the outcome of `insert_one`. -/

/-- A watchlist document as stored; the `symbols` field may be absent. -/
structure WLDoc where
  user_id : String
  name : String
  symbols : Option (List String)
  created_at : Nat
  last_updated : Nat
deriving DecidableEq, Repr

/-- The dict returned by `get_watchlist`; each field may be absent (the
fallback return value is the bare dict `{"symbols": []}`). -/
structure WLDict where
  user_id : Option String
  name : Option String
  symbols : Option (List String)
  created_at : Option Nat
  last_updated : Option Nat
deriving DecidableEq, Repr

/-- The fallback dict `{"symbols": []}`. -/
def emptyWLDict : WLDict :=
  { user_id := none, name := none, symbols := some [], created_at := none,
    last_updated := none }

/-- `DatabaseService.get_watchlist`: look the document up; on a raising
store return `{"symbols": []}`; when no document exists, build a fresh one
(and on a raising insert return `{"symbols": []}`); finally ensure the
returned dict has a `symbols` field. -/
def get_watchlist (findRes : Except Unit (Option WLDoc))
    (insertRes : Except Unit Unit) (user_id list_name : String)
    (now : Nat) : WLDict :=
  match findRes with
  | .error _ => emptyWLDict
  | .ok (some doc) =>
    { user_id := some doc.user_id
      name := some doc.name
      symbols := some (doc.symbols.getD [])
      created_at := some doc.created_at
      last_updated := some doc.last_updated }
  | .ok none =>
    match insertRes with
    | .error _ => emptyWLDict
    | .ok _ =>
      { user_id := some user_id
        name := some list_name
        symbols := some []
        created_at := some now
        last_updated := some now }

/-- `DatabaseService.get_user_watchlist`: `watchlist.get("symbols", []) if
watchlist else []`, with a raising store caught and turned into `[]`. -/
def get_user_watchlist (findRes : Except Unit (Option WLDoc)) :
    List String :=
  match findRes with
  | .error _ => []
  | .ok none => []
  | .ok (some doc) => doc.symbols.getD []

/-- C10: watchlist reads are total.  `get_watchlist` always returns a dict
with a `symbols` list, for every store behavior (raising find, missing
document, raising insert, document without a `symbols` field), and
`get_user_watchlist` always returns a list: empty on store failure or when
no document exists, and the stored symbols (defaulting to empty) otherwise. -/
theorem c10_watchlist_reads_total :
    (∀ (findRes : Except Unit (Option WLDoc))
        (insertRes : Except Unit Unit) (uid nm : String) (now : Nat),
      (get_watchlist findRes insertRes uid nm now).symbols.isSome = true) ∧
    get_user_watchlist (.error ()) = [] ∧
    get_user_watchlist (.ok none) = [] ∧
    (∀ doc : WLDoc,
      get_user_watchlist (.ok (some doc)) = doc.symbols.getD []) := by
  refine ⟨?_, rfl, rfl, fun doc => rfl⟩
  intro findRes insertRes uid nm now
  cases findRes with
  | error e => rfl
  | ok found =>
    cases found with
    | some doc => rfl
    | none =>
      cases insertRes with
      | error e => rfl
      | ok u => rfl

end StockTerminal
